import Mathlib

/-!
# Verification of the audio-to-MIDI conversion server (`src/app.py`)

A shallow embedding of the Flask request handlers in `src/app.py`:

* `allowed_file` (app.py lines 25-27),
* `health_check` (lines 29-36),
* `convert_audio` (lines 38-174),
* the startup model load (lines 14-19).

Python strings are Lean `String`s, byte buffers are `List Nat`, and the
external collaborators (the Basic Pitch model and `traceback.format_exc`)
are fields of an environment record `Env`.  Observable filesystem and
model side effects of a request are recorded as a chronological event
trace (`List Ev`); every event in the trace occurs before the handler's
return value (the final HTTP response) is emitted by the framework.
-/

namespace AudioToMidi

/-- app.py line 22: `ALLOWED_EXTENSIONS = {'wav', 'mp3', 'flac', 'm4a', 'aac', 'ogg'}`.
The Python value is a set; we keep the literal's order.  (Only membership and
the joined error message depend on it, and Python set iteration order is
unspecified, so the join order here is one admissible choice.) -/
def ALLOWED_EXTENSIONS : List String := ["wav", "mp3", "flac", "m4a", "aac", "ogg"]

/-- app.py line 23: `MAX_FILE_SIZE = 10 * 1024 * 1024`. -/
def MAX_FILE_SIZE : Nat := 10 * 1024 * 1024

/-- The characters kept by Python's `s.rsplit('.', 1)[1]` after the last dot:
everything strictly after the final `'.'` of the string. -/
def afterLastDot (cs : List Char) : List Char :=
  (cs.reverse.takeWhile (fun c => c ≠ '.')).reverse

/-- Python's `cs.rsplit('.', 1)` on a character list: if the list contains a
dot, split it at the last dot into the part before and the part after;
otherwise return the one-element list holding the whole input. -/
def rsplit_dot_1 (cs : List Char) : List (List Char) :=
  if cs.contains '.' then
    [cs.take (cs.length - (afterLastDot cs).length - 1), afterLastDot cs]
  else
    [cs]

/-- The lower-cased extension of a filename: Python's
`filename.rsplit('.', 1)[1].lower()` (with `[]` as the out-of-range default,
which is only reachable when the filename has no dot). -/
def extensionLower (filename : String) : String :=
  String.mk (((rsplit_dot_1 filename.data).getD 1 []).map Char.toLower)

/-- app.py lines 25-27:
`return '.' in filename and filename.rsplit('.', 1)[1].lower() in ALLOWED_EXTENSIONS`. -/
def allowed_file (filename : String) : Bool :=
  filename.data.contains '.' && ALLOWED_EXTENSIONS.contains (extensionLower filename)

/-- Characters kept by werkzeug's `_filename_ascii_strip_re` (the class
`[A-Za-z0-9_.-]`). -/
def filenameAsciiKeep (c : Char) : Bool :=
  c.isAlpha || c.isDigit || c = '_' || c = '.' || c = '-'

/-- Strip the given characters from both ends of a list, like Python's
`str.strip("._")`. -/
def stripEnds (bad : List Char) (cs : List Char) : List Char :=
  (((cs.dropWhile (fun c => bad.contains c)).reverse.dropWhile
      (fun c => bad.contains c)).reverse)

/-- Model of the external `werkzeug.utils.secure_filename`, restricted to
ASCII input (on which the NFKD normalization step is the identity) on a
POSIX system (`os.sep = '/'`, no `altsep`, not `nt`): replace path
separators by spaces, join the whitespace-separated words with `'_'`
(Python's `"_".join(filename.split())`), drop every character outside
`[A-Za-z0-9_.-]`, and strip leading and trailing `'.'` and `'_'`. -/
def secure_filename (s : String) : String :=
  let noSep := s.data.map (fun c => if c = '/' then ' ' else c)
  let joined :=
    List.intercalate ['_'] ((noSep.splitOnP (fun c => c.isWhitespace)).filter
      (fun w => w ≠ []))
  String.mk (stripEnds ['.', '_'] (joined.filter filenameAsciiKeep))

/-- The file part of a multipart request: `request.files['file']`, carrying
the declared filename and the uploaded bytes. -/
structure FilePart where
  filename : String
  content : List Nat
deriving DecidableEq

/-- A `POST /convert` request: `file = none` models a request with no
`'file'` part. -/
structure ConvertRequest where
  file : Option FilePart
deriving DecidableEq

/-- Outcome of the external `predict(temp_file_path, basic_pitch_model)` call
together with the in-memory MIDI serialization (app.py lines 99-111):
either an exception with its message text, or the note-event count and the
serialized MIDI byte buffer. -/
inductive PredictResult where
  | exc (msg : String)
  | ok (noteCount : Nat) (midiBytes : List Nat)
deriving DecidableEq

/-- The process environment of a request: whether `basic_pitch_model` is a
loaded model (not `None`), the external transcription capability applied to
the bytes written into the temp file, and `traceback.format_exc()` as a
function from the active exception's message to its rendered trace text. -/
structure Env where
  modelLoaded : Bool
  predict : List Nat → PredictResult
  formatExc : String → String

/-- Observable side effects of one request, in chronological order. -/
inductive Ev where
  | tempCreate
  | tempDelete
  | predictCall
  | modelLoad
deriving DecidableEq

/-- An HTTP response from the `/convert` handler: either a JSON error body
(`error` plus optional `details`, `suggestion`, `trace` fields) with its
status code, or `send_file` of a byte buffer with its mimetype, attachment
flag and download name (always status 200 in Flask). -/
inductive Response where
  | json (status : Nat) (error : String) (details : Option String)
      (suggestion : Option String) (trace : Option String)
  | file (status : Nat) (body : List Nat) (mimetype : String)
      (asAttachment : Bool) (downloadName : String)
deriving DecidableEq

/-- app.py line 59: the `UnsupportedType` message
`f'Unsupported file type. Allowed: {", ".join(ALLOWED_EXTENSIONS)}'`. -/
def unsupportedMsg : String :=
  "Unsupported file type. Allowed: " ++ String.intercalate ", " ALLOWED_EXTENSIONS

/-- app.py lines 68-73: the size gate.  `some r` is an early 400 return,
`none` means the upload passed the size check. -/
def size_check (file_size : Nat) : Option Response :=
  if file_size > MAX_FILE_SIZE then
    some (Response.json 400 "File too large (max 10MB)" none none none)
  else if file_size = 0 then
    some (Response.json 400 "Empty file" none none none)
  else
    none

/-- CPython's message for the `NameError` raised at app.py line 115, where
the never-assigned name `midi_size` is read. -/
def nameErrorMsg : String := "name 'midi_size' is not defined"

/-- CPython's message for the `IndexError` raised at app.py line 76 when
`secure_filename(file.filename).rsplit('.', 1)` has no element at index 1. -/
def indexErrorMsg : String := "list index out of range"

/-- `leadsWith needle hay` is true when `hay` starts with `needle`. -/
def leadsWith : List Char → List Char → Bool
  | [], _ => true
  | _ :: _, [] => false
  | a :: as, b :: bs => a == b && leadsWith as bs

/-- `occursIn needle hay` is Python's `needle in hay` on strings viewed as
character lists: `needle` occurs contiguously somewhere in `hay`. -/
def occursIn (needle : List Char) : List Char → Bool
  | [] => needle.isEmpty
  | b :: bs => leadsWith needle (b :: bs) || occursIn needle bs

/-- Python's `str.lower()` viewed character-wise (the messages involved are
ASCII, where per-character lowering agrees with `str.lower()`). -/
def lowerChars (cs : List Char) : List Char := cs.map Char.toLower

/-- app.py lines 130-154: the `except` block classifying an exception raised
inside the inner `try` by substring tests on its lower-cased message.
`tr` is `traceback.format_exc()` for that exception. -/
def classify_conversion_error (msg tr : String) : Response :=
  if occursIn "memory".data (lowerChars msg.data) then
    Response.json 500 "Memory error during conversion"
      (some "File too large or insufficient server memory")
      (some "Try a smaller audio file") none
  else if occursIn "model".data (lowerChars msg.data) then
    Response.json 500 "Model loading failed" (some msg)
      (some "Server model initialization error") none
  else
    Response.json 500 "Conversion failed" (some msg) none (some tr)

/-- app.py lines 156-162: the `finally` block, `if os.path.exists(path):
os.unlink(path)`.  Takes whether the temp file still exists and returns
whether it exists afterwards together with the deletion events performed. -/
def unlink_if_exists (tempExists : Bool) : Bool × List Ev :=
  if tempExists then (false, [Ev.tempDelete]) else (false, [])

/-- app.py lines 14-19: the startup `try: basic_pitch_model = Model(...)
except: basic_pitch_model = None`.  Returns whether `basic_pitch_model` is a
usable model handle; a load failure leaves it `None` and nothing in the
program ever assigns it again. -/
def load_basic_pitch_model (loadResult : Except String Unit) : Bool :=
  match loadResult with
  | Except.ok _ => true
  | Except.error _ => false

/-- app.py lines 29-36, the `GET /health` handler: status code 200 (Flask's
default for `jsonify`) and the JSON object as an association list. -/
def health_check : Nat × List (String × String) :=
  (200,
    [("status", "healthy"),
     ("service", "Basic Pitch MIDI Converter"),
     ("version", "1.0.0")])

/-- app.py lines 38-174, the `POST /convert` handler.  Returns the HTTP
response together with the chronological trace of observable side effects;
every traced event happens before the returned response is emitted.

Faithful to the source, including its two faults:
* line 76 evaluates `secure_filename(file.filename).rsplit('.', 1)[1]`,
  which raises `IndexError` when the secured name has no dot; the exception
  is caught by the outer `except` (lines 164-174) before any temp file
  exists;
* line 115 reads the never-assigned name `midi_size`, so every request that
  reaches it raises `NameError`, caught and classified by the inner
  `except` (lines 130-154); the `send_file` success return at lines 123-128
  and the empty-MIDI return at lines 117-120 are unreachable. -/
def convert_audio (env : Env) (req : ConvertRequest) : Response × List Ev :=
  match req.file with
  | none =>
    -- lines 46-48
    (Response.json 400 "No file provided" none none none, [])
  | some f =>
    -- lines 50-53
    if f.filename = "" then
      (Response.json 400 "No file selected" none none none, [])
    -- lines 58-61
    else if !allowed_file f.filename then
      (Response.json 400 unsupportedMsg none none none, [])
    else
      -- lines 64-73
      let file_size := f.content.length
      match size_check file_size with
      | some r => (r, [])
      | none =>
        -- line 76: may raise IndexError, handled at lines 164-174
        match (rsplit_dot_1 (secure_filename f.filename).data)[1]? with
        | none =>
          (Response.json 500 "Server error" (some indexErrorMsg) none
            (some (env.formatExc indexErrorMsg)), [])
        | some _ =>
          -- lines 79-81: the temp file is created; lines 86-162: try/finally
          let inner : Response × List Ev :=
            -- lines 88-94
            if !env.modelLoaded then
              (Response.json 500 "Model not loaded"
                (some "Basic Pitch model failed to initialize")
                (some "Server restart required") none, [])
            else
              -- lines 99-111 under the inner try
              match env.predict f.content with
              | PredictResult.exc msg =>
                (classify_conversion_error msg (env.formatExc msg),
                 [Ev.predictCall])
              | PredictResult.ok _ _ =>
                -- line 115: NameError on the undefined `midi_size`
                (classify_conversion_error nameErrorMsg
                  (env.formatExc nameErrorMsg), [Ev.predictCall])
          (inner.1, Ev.tempCreate :: inner.2 ++ (unlink_if_exists true).2)

/-! ## Concrete environments used as witnesses -/

/-- The four bytes of a MIDI header chunk tag, a concrete non-empty MIDI
buffer. -/
def midiHeaderBytes : List Nat := [77, 84, 104, 100]

/-- A rendering of `traceback.format_exc()` used by the concrete
environments. -/
def fmtExc (m : String) : String := "Traceback: " ++ m

/-- Loaded model whose transcription succeeds with a non-empty buffer. -/
def envModelOk : Env :=
  { modelLoaded := true
    predict := fun _ => PredictResult.ok 3 midiHeaderBytes
    formatExc := fmtExc }

/-- Loaded model whose transcription succeeds with an empty buffer
(a silent recording). -/
def envModelOkEmpty : Env :=
  { modelLoaded := true
    predict := fun _ => PredictResult.ok 0 []
    formatExc := fmtExc }

/-- The startup model load failed: `basic_pitch_model is None`. -/
def envLoadFailed : Env :=
  { modelLoaded := false
    predict := fun _ => PredictResult.exc "unreachable"
    formatExc := fmtExc }

/-- Loaded model whose transcription raises an out-of-memory error. -/
def envPredictMemory : Env :=
  { modelLoaded := true
    predict := fun _ => PredictResult.exc "CUDA out of MEMORY"
    formatExc := fmtExc }

/-! ## Supporting lemmas -/

/-- A filename accepted by `allowed_file` contains a dot, hence is not the
empty string. -/
theorem allowed_file_ne_empty {s : String} (h : allowed_file s = true) :
    s ≠ "" := by
  intro hs
  subst hs
  exact absurd h (by decide)

/-- The size gate admits every length between 1 and `MAX_FILE_SIZE`. -/
theorem size_check_in_range {n : Nat} (h1 : 1 ≤ n) (h2 : n ≤ MAX_FILE_SIZE) :
    size_check n = none := by
  unfold size_check
  rw [if_neg (by omega), if_neg (by omega)]

/-! ## Claims -/

/-- C6: validation checks run in the handler's fixed order and short-circuit
on the first failure: a request with no file part gets 400 `No file
provided` before any other check, and a present file part whose declared
filename is empty gets 400 `No file selected` before the extension and size
checks run (here `f` is arbitrary, so its content may be oversized or empty
and its extension unsupported — the empty-filename rejection still wins). -/
theorem c6_validation_order_short_circuits (env : Env) (f : FilePart) :
    convert_audio env { file := none } =
      (Response.json 400 "No file provided" none none none, []) ∧
    (f.filename = "" →
      convert_audio env { file := some f } =
        (Response.json 400 "No file selected" none none none, [])) := by
  refine ⟨rfl, fun h => ?_⟩
  simp [convert_audio, h]

theorem c6_witness :
    convert_audio envModelOk { file := some { filename := "", content := [] } } =
      (Response.json 400 "No file selected" none none none, []) :=
  (c6_validation_order_short_circuits envModelOk
    { filename := "", content := [] }).2 rfl

/-- C9 counterexample: the `/health` body built at app.py lines 32-36 has
exactly the fields `status`, `service`, `version`; the claimed
`supported_formats` field is absent. -/
theorem c9_counterexample :
    health_check.1 = 200 ∧
    (health_check.2.map Prod.fst).contains "supported_formats" = false := by
  decide

/-- C9 amended: every `GET /health` request returns HTTP 200 with a JSON
body containing `status` (equal to `"healthy"`), `service`, and `version`;
no `supported_formats` field is included. -/
theorem c9_health_fields :
    health_check.1 = 200 ∧
    List.lookup "status" health_check.2 = some "healthy" ∧
    (List.lookup "service" health_check.2).isSome = true ∧
    (List.lookup "version" health_check.2).isSome = true := by
  decide

/-- C4: an upload whose declared filename has a dot but whose lower-cased
substring after the final dot is outside the allow-set is rejected with 400
and the `Unsupported file type` message, with an empty side-effect trace:
no temp file is created and no model call is made. -/
theorem c4_unsupported_extension_rejected (env : Env) (f : FilePart)
    (hdot : f.filename.data.contains '.' = true)
    (hext : ALLOWED_EXTENSIONS.contains (extensionLower f.filename) = false) :
    convert_audio env { file := some f } =
      (Response.json 400 unsupportedMsg none none none, []) ∧
    Ev.tempCreate ∉ (convert_audio env { file := some f }).2 ∧
    Ev.predictCall ∉ (convert_audio env { file := some f }).2 := by
  have hne : f.filename ≠ "" := by
    intro hs
    rw [hs] at hdot
    exact absurd hdot (by decide)
  have hal : allowed_file f.filename = false := by
    unfold allowed_file
    rw [hext, Bool.and_false]
  have hmain : convert_audio env { file := some f } =
      (Response.json 400 unsupportedMsg none none none, []) := by
    simp [convert_audio, hne, hal]
  refine ⟨hmain, ?_, ?_⟩ <;> rw [hmain] <;> simp

theorem c4_witness :
    ("a.txt" : String).data.contains '.' = true ∧
    ALLOWED_EXTENSIONS.contains (extensionLower "a.txt") = false ∧
    convert_audio envModelOk { file := some { filename := "a.txt", content := [1] } } =
      (Response.json 400 unsupportedMsg none none none, []) :=
  ⟨by decide, by decide,
    (c4_unsupported_extension_rejected envModelOk
      { filename := "a.txt", content := [1] } (by decide) (by decide)).1⟩

/-- C5: for uploads reaching the size check (file part present, filename
accepted by `allowed_file`, hence non-empty), a content length of 0 yields
400 `Empty file`, a length strictly above `MAX_FILE_SIZE = 10*1024*1024`
yields 400 `File too large (max 10MB)`, and every length between 1 and
`MAX_FILE_SIZE` inclusive passes the size gate (`size_check`, the
translation of app.py lines 68-73, returns `none`). -/
theorem c5_size_gate (env : Env) (f : FilePart)
    (hallow : allowed_file f.filename = true) :
    MAX_FILE_SIZE = 10 * 1024 * 1024 ∧
    (f.content.length = 0 →
      convert_audio env { file := some f } =
        (Response.json 400 "Empty file" none none none, [])) ∧
    (f.content.length > MAX_FILE_SIZE →
      convert_audio env { file := some f } =
        (Response.json 400 "File too large (max 10MB)" none none none, [])) ∧
    (∀ n, 1 ≤ n → n ≤ MAX_FILE_SIZE → size_check n = none) := by
  have hne := allowed_file_ne_empty hallow
  refine ⟨rfl, fun h0 => ?_, fun hg => ?_,
    fun n h1 h2 => size_check_in_range h1 h2⟩
  · have hsz : size_check f.content.length =
        some (Response.json 400 "Empty file" none none none) := by
      unfold size_check
      rw [if_neg (by omega), if_pos h0]
    simp [convert_audio, hne, hallow, hsz]
  · have hsz : size_check f.content.length =
        some (Response.json 400 "File too large (max 10MB)" none none none) := by
      unfold size_check
      rw [if_pos hg]
    simp [convert_audio, hne, hallow, hsz]

theorem c5_witness :
    allowed_file "a.wav" = true ∧
    convert_audio envModelOk { file := some { filename := "a.wav", content := [] } } =
      (Response.json 400 "Empty file" none none none, []) :=
  ⟨by decide,
    (c5_size_gate envModelOk { filename := "a.wav", content := [] }
      (by decide)).2.1 rfl⟩

/-- C10: the upload with declared filename `".wav"` and one byte of content
passes all four validation checks, yet line 76 takes the temp-file
extension from `secure_filename(".wav") = "wav"` (leading dot stripped),
whose `rsplit('.', 1)` has no index 1, raising `IndexError`; the outermost
catch answers 500 `Server error`, and the empty trace shows no temp file
was created. -/
theorem c10_secure_filename_index_error (env : Env) :
    allowed_file ".wav" = true ∧
    0 < ([1] : List Nat).length ∧ ([1] : List Nat).length ≤ MAX_FILE_SIZE ∧
    secure_filename ".wav" = "wav" ∧
    (rsplit_dot_1 (secure_filename ".wav").data)[1]? = none ∧
    convert_audio env { file := some { filename := ".wav", content := [1] } } =
      (Response.json 500 "Server error" (some indexErrorMsg) none
        (some (env.formatExc indexErrorMsg)), []) := by
  refine ⟨by decide, by decide, by decide, by decide, by decide, ?_⟩
  rfl

theorem c10_witness :
    convert_audio envModelOk
      { file := some { filename := ".wav", content := [1] } } =
      (Response.json 500 "Server error" (some indexErrorMsg) none
        (some (fmtExc indexErrorMsg)), []) :=
  (c10_secure_filename_index_error envModelOk).2.2.2.2.2

/-- The side-effect trace of any `/convert` request has one of three shapes:
no temp file was made, or the temp file was made and deleted around a
model-availability rejection, or made and deleted around one `predict`
call. -/
theorem convert_audio_trace_shape (env : Env) (req : ConvertRequest) :
    (convert_audio env req).2 = [] ∨
    (convert_audio env req).2 = [Ev.tempCreate, Ev.tempDelete] ∨
    (convert_audio env req).2 =
      [Ev.tempCreate, Ev.predictCall, Ev.tempDelete] := by
  cases hreq : req.file with
  | none => simp [convert_audio, hreq]
  | some f =>
    by_cases h1 : f.filename = ""
    · simp [convert_audio, hreq, h1]
    · by_cases h2 : allowed_file f.filename
      · cases hsz : size_check f.content.length with
        | some r => simp [convert_audio, hreq, h1, h2, hsz]
        | none =>
          cases hget : (rsplit_dot_1 (secure_filename f.filename).data)[1]? with
          | none => simp [convert_audio, hreq, h1, h2, hsz, hget]
          | some e =>
            by_cases h3 : env.modelLoaded
            · cases hp : env.predict f.content with
              | exc m =>
                simp [convert_audio, hreq, h1, h2, hsz, hget, h3, hp,
                  unlink_if_exists]
              | ok n bs =>
                simp [convert_audio, hreq, h1, h2, hsz, hget, h3, hp,
                  unlink_if_exists]
            · simp [convert_audio, hreq, h1, h2, hsz, hget, h3,
                unlink_if_exists]
      · simp [convert_audio, hreq, h1, h2]

/-- C3: on every request whose trace shows the temp file was created, the
trace contains exactly one deletion, the deletion is the last side effect
before the handler's response leaves the function (the `finally` block),
and releasing an already-absent file performs nothing and is not an
error (`unlink_if_exists` is total and emits no event). -/
theorem c3_temp_released_exactly_once (env : Env) (req : ConvertRequest)
    (h : Ev.tempCreate ∈ (convert_audio env req).2) :
    (convert_audio env req).2.count Ev.tempDelete = 1 ∧
    (convert_audio env req).2.getLast? = some Ev.tempDelete ∧
    unlink_if_exists false = (false, []) := by
  rcases convert_audio_trace_shape env req with hs | hs | hs
  · rw [hs] at h
    exact absurd h (by simp)
  · rw [hs]
    exact ⟨by decide, by decide, by decide⟩
  · rw [hs]
    exact ⟨by decide, by decide, by decide⟩

theorem c3_witness :
    Ev.tempCreate ∈
      (convert_audio envLoadFailed
        { file := some { filename := "a.wav", content := [1] } }).2 ∧
    (convert_audio envLoadFailed
      { file := some { filename := "a.wav", content := [1] } }).2.count
        Ev.tempDelete = 1 :=
  ⟨by decide,
    (c3_temp_released_exactly_once envLoadFailed
      { file := some { filename := "a.wav", content := [1] } } (by decide)).1⟩

/-- The `NameError` message raised at app.py line 115 mentions neither
"memory" nor "model", so the inner `except` classifies it as the generic
conversion failure. -/
theorem classify_nameError_generic (tr : String) :
    classify_conversion_error nameErrorMsg tr =
      Response.json 500 "Conversion failed" (some nameErrorMsg) none
        (some tr) := by
  have h1 : occursIn "memory".data (lowerChars nameErrorMsg.data) = false := by
    decide
  have h2 : occursIn "model".data (lowerChars nameErrorMsg.data) = false := by
    decide
  simp [classify_conversion_error, h1, h2]

/-- C7: for every exception raised inside the inner try (model invocation or
MIDI serialization), the handler's response is the ordered substring
classification of the exception's lower-cased message: "memory" wins,
otherwise "model", otherwise the generic report carrying the raw text and
the rendered trace; all three carry HTTP status 500. -/
theorem c7_conversion_error_classification (env : Env) (f : FilePart)
    (msg : String) (e : List Char)
    (hallow : allowed_file f.filename = true)
    (hsz1 : 1 ≤ f.content.length) (hsz2 : f.content.length ≤ MAX_FILE_SIZE)
    (hget : (rsplit_dot_1 (secure_filename f.filename).data)[1]? = some e)
    (hmodel : env.modelLoaded = true)
    (hpred : env.predict f.content = PredictResult.exc msg) :
    (occursIn "memory".data (lowerChars msg.data) = true →
      (convert_audio env { file := some f }).1 =
        Response.json 500 "Memory error during conversion"
          (some "File too large or insufficient server memory")
          (some "Try a smaller audio file") none) ∧
    (occursIn "memory".data (lowerChars msg.data) = false →
      occursIn "model".data (lowerChars msg.data) = true →
      (convert_audio env { file := some f }).1 =
        Response.json 500 "Model loading failed" (some msg)
          (some "Server model initialization error") none) ∧
    (occursIn "memory".data (lowerChars msg.data) = false →
      occursIn "model".data (lowerChars msg.data) = false →
      (convert_audio env { file := some f }).1 =
        Response.json 500 "Conversion failed" (some msg) none
          (some (env.formatExc msg))) := by
  have hne := allowed_file_ne_empty hallow
  have hsz := size_check_in_range hsz1 hsz2
  have hmain : (convert_audio env { file := some f }).1 =
      classify_conversion_error msg (env.formatExc msg) := by
    simp [convert_audio, hne, hallow, hsz, hget, hmodel, hpred]
  rw [hmain]
  refine ⟨fun hm => ?_, fun hm1 hm2 => ?_, fun hm1 hm2 => ?_⟩
  · simp [classify_conversion_error, hm]
  · simp [classify_conversion_error, hm1, hm2]
  · simp [classify_conversion_error, hm1, hm2]

theorem c7_witness :
    occursIn "memory".data (lowerChars ("CUDA out of MEMORY" : String).data) = true ∧
    (convert_audio envPredictMemory
      { file := some { filename := "a.wav", content := [1] } }).1 =
      Response.json 500 "Memory error during conversion"
        (some "File too large or insufficient server memory")
        (some "Try a smaller audio file") none :=
  ⟨by decide,
    (c7_conversion_error_classification envPredictMemory
      { filename := "a.wav", content := [1] } "CUDA out of MEMORY" "wav".data
      (by decide) (by decide) (by decide) (by decide) rfl rfl).1 (by decide)⟩

/-- C8 counterexample: with the startup load failed (`basic_pitch_model is
None`), the upload `".wav"` with one byte passes all validation checks yet
is answered 500 `Server error` (the line-76 `IndexError`), not 500
`Model not loaded` — so not every validated request fails with
`ModelUnavailable`. -/
theorem c8_counterexample :
    envLoadFailed.modelLoaded = load_basic_pitch_model (Except.error "load failed") ∧
    allowed_file ".wav" = true ∧
    (1 ≤ ([1] : List Nat).length ∧ ([1] : List Nat).length ≤ MAX_FILE_SIZE) ∧
    (convert_audio envLoadFailed
      { file := some { filename := ".wav", content := [1] } }).1 ≠
      Response.json 500 "Model not loaded"
        (some "Basic Pitch model failed to initialize")
        (some "Server restart required") none ∧
    (convert_audio envLoadFailed
      { file := some { filename := ".wav", content := [1] } }).1 =
      Response.json 500 "Server error" (some indexErrorMsg) none
        (some (fmtExc indexErrorMsg)) := by
  decide

/-- C8 amended: once the startup load has failed, every request that passes
validation and whose secure-filename extension extraction at line 76
succeeds is answered 500 `Model not loaded` without calling the
transcription capability and without any model-load attempt. -/
theorem c8_model_unavailable_fail_fast (env : Env) (f : FilePart)
    (e : List Char) (lmsg : String)
    (hload : env.modelLoaded = load_basic_pitch_model (Except.error lmsg))
    (hallow : allowed_file f.filename = true)
    (hsz1 : 1 ≤ f.content.length) (hsz2 : f.content.length ≤ MAX_FILE_SIZE)
    (hget : (rsplit_dot_1 (secure_filename f.filename).data)[1]? = some e) :
    (convert_audio env { file := some f }).1 =
      Response.json 500 "Model not loaded"
        (some "Basic Pitch model failed to initialize")
        (some "Server restart required") none ∧
    Ev.predictCall ∉ (convert_audio env { file := some f }).2 ∧
    Ev.modelLoad ∉ (convert_audio env { file := some f }).2 := by
  have hne := allowed_file_ne_empty hallow
  have hsz := size_check_in_range hsz1 hsz2
  have hml : env.modelLoaded = false := by rw [hload]; rfl
  have hmain : convert_audio env { file := some f } =
      (Response.json 500 "Model not loaded"
        (some "Basic Pitch model failed to initialize")
        (some "Server restart required") none,
       [Ev.tempCreate, Ev.tempDelete]) := by
    simp [convert_audio, hne, hallow, hsz, hget, hml, unlink_if_exists]
  exact ⟨by rw [hmain], by rw [hmain]; decide, by rw [hmain]; decide⟩

theorem c8_witness :
    envLoadFailed.modelLoaded = load_basic_pitch_model (Except.error "boom") ∧
    (convert_audio envLoadFailed
      { file := some { filename := "a.wav", content := [1] } }).1 =
      Response.json 500 "Model not loaded"
        (some "Basic Pitch model failed to initialize")
        (some "Server restart required") none :=
  ⟨rfl,
    (c8_model_unavailable_fail_fast envLoadFailed
      { filename := "a.wav", content := [1] } "wav".data "boom"
      rfl (by decide) (by decide) (by decide) (by decide)).1⟩

/-- C1 (claim fails on the code): a request that passes every validation
check, with a loaded model whose `predict` call and MIDI serialization
succeed with a non-empty byte buffer, is nonetheless answered 500
`Conversion failed`: line 115 reads the never-assigned name `midi_size`,
the resulting `NameError` is classified as a generic conversion failure,
and the `send_file` 200 response is unreachable — the handler never
returns a file response at all. -/
theorem c1_success_response_unreachable (env : Env) (f : FilePart)
    (n : Nat) (bytes : List Nat) (e : List Char)
    (hmodel : env.modelLoaded = true)
    (hallow : allowed_file f.filename = true)
    (hsz1 : 1 ≤ f.content.length) (hsz2 : f.content.length ≤ MAX_FILE_SIZE)
    (hget : (rsplit_dot_1 (secure_filename f.filename).data)[1]? = some e)
    (hpred : env.predict f.content = PredictResult.ok n bytes)
    (_hbytes : bytes ≠ []) :
    (convert_audio env { file := some f }).1 =
      Response.json 500 "Conversion failed" (some nameErrorMsg) none
        (some (env.formatExc nameErrorMsg)) ∧
    ∀ (status : Nat) (body : List Nat) (mt : String) (att : Bool)
      (dn : String),
      (convert_audio env { file := some f }).1 ≠
        Response.file status body mt att dn := by
  have hne := allowed_file_ne_empty hallow
  have hsz := size_check_in_range hsz1 hsz2
  have hmain : (convert_audio env { file := some f }).1 =
      classify_conversion_error nameErrorMsg (env.formatExc nameErrorMsg) := by
    simp [convert_audio, hne, hallow, hsz, hget, hmodel, hpred]
  rw [hmain, classify_nameError_generic]
  exact ⟨rfl, fun _ _ _ _ _ hc => Response.noConfusion hc⟩

theorem c1_witness :
    (convert_audio envModelOk
      { file := some { filename := "a.wav", content := [1] } }).1 =
      Response.json 500 "Conversion failed" (some nameErrorMsg) none
        (some (fmtExc nameErrorMsg)) :=
  (c1_success_response_unreachable envModelOk
    { filename := "a.wav", content := [1] } 3 midiHeaderBytes "wav".data
    rfl (by decide) (by decide) (by decide) (by decide) rfl (by decide)).1

/-- C2 (claim fails on the code): when `predict` and serialization succeed
with a byte buffer of length zero, the handler does not return the claimed
500 `Generated MIDI file is empty` body: line 115 raises `NameError` on
the never-assigned `midi_size` before the emptiness test can run, and the
response is the generic 500 `Conversion failed` report instead. -/
theorem c2_empty_buffer_misreported (env : Env) (f : FilePart)
    (n : Nat) (e : List Char)
    (hmodel : env.modelLoaded = true)
    (hallow : allowed_file f.filename = true)
    (hsz1 : 1 ≤ f.content.length) (hsz2 : f.content.length ≤ MAX_FILE_SIZE)
    (hget : (rsplit_dot_1 (secure_filename f.filename).data)[1]? = some e)
    (hpred : env.predict f.content = PredictResult.ok n []) :
    (convert_audio env { file := some f }).1 =
      Response.json 500 "Conversion failed" (some nameErrorMsg) none
        (some (env.formatExc nameErrorMsg)) ∧
    (convert_audio env { file := some f }).1 ≠
      Response.json 500 "Generated MIDI file is empty"
        (some "No musical content detected in the audio") none none := by
  have hne := allowed_file_ne_empty hallow
  have hsz := size_check_in_range hsz1 hsz2
  have hmain : (convert_audio env { file := some f }).1 =
      classify_conversion_error nameErrorMsg (env.formatExc nameErrorMsg) := by
    simp [convert_audio, hne, hallow, hsz, hget, hmodel, hpred]
  rw [hmain, classify_nameError_generic]
  refine ⟨rfl, fun hc => ?_⟩
  injection hc with h1 h2 h3 h4 h5
  exact absurd h2 (by decide)

theorem c2_witness :
    (convert_audio envModelOkEmpty
      { file := some { filename := "a.wav", content := [1] } }).1 =
      Response.json 500 "Conversion failed" (some nameErrorMsg) none
        (some (fmtExc nameErrorMsg)) :=
  (c2_empty_buffer_misreported envModelOkEmpty
    { filename := "a.wav", content := [1] } 0 "wav".data
    rfl (by decide) (by decide) (by decide) (by decide) rfl).1

end AudioToMidi
